import Mathlib

/-!
# Verification of the battery_monitor BMS telemetry program

Shallow embedding of the pure logic of `src/battery.py` (CRC-16/MODBUS
checksum, Modbus response validation and decoding, register-to-physical
decoding, threshold and bitfield alarm derivation, rolling-log truncation,
cloud-session state machine and the main sampling/reporting loop), together
with theorems settling the specification's claims about it.

Machine integers are modelled as `Nat`/`Int`; Python float arithmetic on
decoded physical quantities is modelled exactly over `ℚ`; byte strings are
`List Nat` with elements below 256; fallible operations return `Option`
(Python `None`) or `Except` (a raised exception).  I/O (the serial port, the
websocket, the file system) is modelled by passing the data the transport
delivered as explicit arguments and returning the data the program would
emit.
-/

namespace Battery

/-! ## CRC-16/MODBUS (src/battery.py, `crc16_modbus`) -/

/-- One inner-loop iteration of `crc16_modbus`: Python
`crc = (crc >> 1) ^ 0xA001 if crc & 1 else crc >> 1`. -/
def crcRound (crc : Nat) : Nat :=
  if crc &&& 1 ≠ 0 then (crc >>> 1) ^^^ 0xA001 else crc >>> 1

/-- One byte step of `crc16_modbus`: `crc ^= b` followed by eight rounds. -/
def crcByte (crc b : Nat) : Nat := crcRound^[8] (crc ^^^ b)

/-- Function `crc16_modbus` from src/battery.py: fold the byte step over the data
starting from 0xFFFF, with the final `& 0xFFFF` mask of the source. -/
def crc16_modbus (data : List Nat) : Nat :=
  (data.foldl crcByte 0xFFFF) &&& 0xFFFF

/-- Reference checksum following the spec's words: "polynomial-0xA001
bit-reflected CRC-16, initial value 0xFFFF, one bit processed per shift,
XOR with 0xA001 when the shifted-out bit is 1", and no final XOR. -/
def crcRefBit (crc : Nat) : Nat :=
  if crc % 2 = 1 then (crc / 2) ^^^ 0xA001 else crc / 2

/-- Reference CRC-16 built from `crcRefBit`, written from the spec's words. -/
def crc16_ref (data : List Nat) : Nat :=
  data.foldl (fun c b => crcRefBit^[8] (c ^^^ b)) 0xFFFF

/-! ## Modbus response validation (src/battery.py, `modbus_read_regs`)

The serial exchange itself is I/O; the function below is `modbus_read_regs`
parameterized by the raw response bytes the transport returned
(`resp = ser.read(5 + count * 2)`, hence any byte string of length at most
`5 + 2·count`).  `.ok none` is Python's `return None`, `.ok (some regs)` a
successful decode, and `.error` a raised exception. -/

/-- the device address `ADDR = 0x0B` from src/battery.py -/
def ADDR : Nat := 0x0B

deriving instance DecidableEq for Except

/-- Decoding loop of `modbus_read_regs`: `struct.unpack(">H", data[i:i+2])`
for each 2-byte chunk; a trailing 1-byte chunk makes `struct.unpack` raise
`struct.error` (big-endian: first byte is the high byte). -/
def unpackWords : List Nat → Except String (List Nat)
  | [] => .ok []
  | [_] => .error "struct.error: unpack requires a buffer of 2 bytes"
  | hi :: lo :: rest => (unpackWords rest).map (fun ws => ((hi <<< 8) ||| lo) :: ws)

/-- Validation and decoding of `modbus_read_regs` from src/battery.py, applied
to the response bytes `resp` delivered by the serial transport. -/
def modbus_read_regs (resp : List Nat) : Except String (Option (List Nat)) :=
  if resp.length < 5 then .ok none
  else if resp.getD 0 0 ≠ ADDR ∨ resp.getD 1 0 ≠ 0x03 then .ok none
  else if resp.getD (resp.length - 2) 0 + 256 * resp.getD (resp.length - 1) 0
      ≠ crc16_modbus (resp.dropLast.dropLast) then .ok none
  else (unpackWords ((resp.drop 3).dropLast.dropLast)).map some

/-! ## Register decoding (src/battery.py, `u32`, `s32`, `read_status_once`) -/

/-- Function `u32` from src/battery.py. -/
def u32 (lo hi : Nat) : Nat := (hi <<< 16) ||| lo

/-- Function `s32` from src/battery.py. -/
def s32 (lo hi : Nat) : Int :=
  let val := (hi <<< 16) ||| lo
  if val &&& 0x80000000 ≠ 0 then (val : Int) - 0x100000000 else (val : Int)

/-- The tuple returned by `read_status_once`. -/
structure StatusResult where
  pack_v : ℚ
  current_a : ℚ
  soc : Nat
  tmax_c : ℚ
  batt_status : Nat
  batt_alarm : Nat
  batt_safety : Nat
deriving DecidableEq, Repr

/-- Function `read_status_once` from src/battery.py, parameterized by the outcomes of
its two register reads: `packRes` for `modbus_read_regs(ser, 0x0400, 0x16)`
and `tmaxRes` for `modbus_read_regs(ser, 0x0C00, 1)` (`none` covers both a
`None` result and, together with `some []`, Python's falsy `not regs`). -/
def read_status_once (packRes : Option (List Nat)) (tmaxRes : Option (List Nat)) :
    Option StatusResult :=
  match packRes with
  | none => none
  | some regs =>
    if regs.length < 0x16 then none
    else
      let current_a : ℚ := (s32 (regs.getD 0 0) (regs.getD 1 0) : ℚ) / 1000
      let pack_v : ℚ := (u32 (regs.getD 10 0) (regs.getD 11 0) : ℚ) / 1000
      let soc := regs.getD 17 0
      let batt_status := regs.getD 19 0
      let batt_alarm := regs.getD 20 0
      let batt_safety := regs.getD 21 0
      match tmaxRes with
      | none => none
      | some [] => none
      | some (tmax_raw :: _) =>
        some { pack_v := pack_v, current_a := current_a, soc := soc,
               tmax_c := ((tmax_raw : ℚ) - 2731) / 10,
               batt_status := batt_status, batt_alarm := batt_alarm,
               batt_safety := batt_safety }

/-! ## Threshold and bitfield alarms (src/battery.py, `check_alarms`,
`BATTERY_ALARM_BITS`, `BATTERY_SAFETY_BITS`, `_decode_bits`) -/

/-- Function `check_alarms` from src/battery.py: sequential appends to `alarms`. -/
def check_alarms (pack_v current_a : ℚ) (soc : Nat) (tmax_c : ℚ) : List String :=
  let alarms : List String := []
  let alarms := if pack_v > 58.4 then alarms ++ ["PACK 电压过高"] else alarms
  let alarms := if pack_v < 40.0 then alarms ++ ["PACK 电压过低"] else alarms
  let alarms := if tmax_c > 60.0 then alarms ++ ["最高温度过高"] else alarms
  let alarms := if tmax_c < 0.0 then alarms ++ ["环境过低温"] else alarms
  let alarms := if soc ≥ 100 then alarms ++ ["电量已满"] else alarms
  let alarms := if soc ≤ 5 then alarms ++ ["电量过低"] else alarms
  alarms

/-- Table `BATTERY_ALARM_BITS` from src/battery.py, as an association list in the
dict's insertion order (Python dicts iterate in insertion order). -/
def BATTERY_ALARM_BITS : List (Nat × String) :=
  [(0, "CUV 单体电池欠压"), (1, "OCD 放电过流"), (2, "SCD 电池短路"),
   (3, "DSG_OT 放电过温保护"), (4, "RCA 剩余容量保护"), (5, "DSG_UT 放电低温保护"),
   (8, "COV 单体电池过压"), (9, "OCC 充电过流"), (10, "CHG_OT 充电过温保护"),
   (11, "CHG_UT 充电低温保护")]

/-- Table `BATTERY_SAFETY_BITS` from src/battery.py, in dict insertion order. -/
def BATTERY_SAFETY_BITS : List (Nat × String) :=
  [(0, "CUV 安全-单体电池欠压"), (1, "OCD 安全-放电过流"), (2, "SCD 安全-电池短路"),
   (3, "DSG_OT 安全-放电过温"), (4, "RCA 安全-剩余容量"), (5, "DSG_UT 安全-放电低温"),
   (8, "COV 安全-单体电池过压"), (9, "OCC 安全-充电过流"), (10, "CHG_OT 安全-充电过温"),
   (11, "CHG_UT 安全-充电低温")]

/-- Function `_decode_bits` from src/battery.py: walk the table in its iteration order
and collect the description of every entry whose bit is set
(`if val & (1 << bit): msgs.append(desc)`). -/
def _decode_bits (val : Nat) (bit_map : List (Nat × String)) : List String :=
  (bit_map.filter (fun p => val &&& (1 <<< p.1) ≠ 0)).map Prod.snd

/-- Function `decode_battery_alarm` from src/battery.py (with its `val == 0` fast path). -/
def decode_battery_alarm (val : Nat) : List String :=
  if val = 0 then [] else _decode_bits val BATTERY_ALARM_BITS

/-- Function `decode_battery_safety` from src/battery.py. -/
def decode_battery_safety (val : Nat) : List String :=
  if val = 0 then [] else _decode_bits val BATTERY_SAFETY_BITS

/-- Reference bitmask decoding following the spec's words: "collect labels
for every set bit present in the table, order = ascending bit index". -/
def decodeBitsSpec (val : Nat) (table : List (Nat × String)) : List String :=
  ((table.filter (fun p => val.testBit p.1)).insertionSort
    (fun p q => p.1 ≤ q.1)).map Prod.snd

/-- The alarm list a tick assembles in `main_async` (src/battery.py lines
374–378): threshold alarms, then decoded operational alarms, then decoded
safety trips, concatenated in that order. -/
def tick_alarms (s : StatusResult) : List String :=
  check_alarms s.pack_v s.current_a s.soc s.tmax_c
    ++ decode_battery_alarm s.batt_alarm ++ decode_battery_safety s.batt_safety

/-- Reference threshold-alarm list following the spec's words and order. -/
def thresholdAlarmsRef (pack_v : ℚ) (soc : Nat) (tmax_c : ℚ) : List String :=
  (if pack_v > 58.4 then ["PACK 电压过高"] else [])
    ++ (if pack_v < 40.0 then ["PACK 电压过低"] else [])
    ++ (if tmax_c > 60.0 then ["最高温度过高"] else [])
    ++ (if tmax_c < 0.0 then ["环境过低温"] else [])
    ++ (if soc ≥ 100 then ["电量已满"] else [])
    ++ (if soc ≤ 5 then ["电量过低"] else [])

/-- Reference derived-alarm list following the spec's words: threshold alarms,
then decoded operational-alarm labels, then decoded safety-trip labels. -/
def derivedAlarmsRef (s : StatusResult) : List String :=
  thresholdAlarmsRef s.pack_v s.soc s.tmax_c
    ++ decodeBitsSpec s.batt_alarm BATTERY_ALARM_BITS
    ++ decodeBitsSpec s.batt_safety BATTERY_SAFETY_BITS

/-! ## Rolling log (src/battery.py, `append_log_line`) -/

/-- Constant `MAX_LOG_SIZE = 200 * 1024` from src/battery.py. -/
def MAX_LOG_SIZE : Nat := 200 * 1024

/-- Function `append_log_line` from src/battery.py, as a transformation of the stored
file content (`none` = file absent; content units are the characters the
source reads and slices, one stored byte each for the size check).  When the
existing size exceeds `MAX_LOG_SIZE` the source keeps
`data[-(MAX_LOG_SIZE // 2):]`, i.e. the trailing `MAX_LOG_SIZE / 2` units,
then appends `line + "\n"`. -/
def append_log_line (stored : Option (List Char)) (line : List Char) : List Char :=
  match stored with
  | none => line ++ ['\n']
  | some data =>
    let kept :=
      if data.length > MAX_LOG_SIZE then data.drop (data.length - MAX_LOG_SIZE / 2)
      else data
    kept ++ line ++ ['\n']

/-! ## Cloud session (src/battery.py, `send_cloud_websocket`)

The globals `_ws_connected`, `_ws_client`, `_ws_warned` become `WsState`
(`hasClient` is `_ws_client is not None`); the network outcomes of the tick
(`websockets.connect` success, `send` success / `ConnectionClosed`-or-`OSError`
/ other exception) become `CloudEnv`.  The result is the new state, the
sequence number of the payload if it was actually sent, and the console
messages printed. -/

/-- State of the module-level websocket globals. -/
structure WsState where
  connected : Bool
  hasClient : Bool
  warned : Bool
deriving DecidableEq, Repr

/-- Outcome the network would give to `await _ws_client.send(text)`. -/
inductive SendOutcome where
  | ok
  | connClosed
  | otherError
deriving DecidableEq, Repr

/-- Network environment of one `send_cloud_websocket` call. -/
structure CloudEnv where
  urlConfigured : Bool
  connectOk : Bool
  sendOutcome : SendOutcome
deriving DecidableEq, Repr

/-- Console messages `send_cloud_websocket` can print. -/
inductive WsMsg where
  | noUrlWarn
  | connectedInfo
  | connectFailWarn
  | sendOkInfo
  | connClosedWarn
  | sendFailWarn
deriving DecidableEq, Repr

/-- The send phase of `send_cloud_websocket` (the `try: ... await
_ws_client.send(text)` block), entered with state `st` and the messages
already printed. -/
def sendPhase (st : WsState) (env : CloudEnv) (seq : Nat) (msgs : List WsMsg) :
    WsState × Option Nat × List WsMsg :=
  match env.sendOutcome with
  | .ok =>
      (st, some seq, msgs ++ if ¬ st.warned then [.sendOkInfo] else [])
  | .connClosed =>
      ({ connected := false, hasClient := false, warned := true }, none,
        msgs ++ if ¬ st.warned then [.connClosedWarn] else [])
  | .otherError =>
      ({ st with warned := true }, none,
        msgs ++ if ¬ st.warned then [.sendFailWarn] else [])

/-- Function `send_cloud_websocket` from src/battery.py: empty-URL early return, the
connect-if-needed phase, then the send phase. -/
def send_cloud_websocket (st : WsState) (env : CloudEnv) (seq : Nat) :
    WsState × Option Nat × List WsMsg :=
  if ¬ env.urlConfigured then
    if ¬ st.warned then ({ st with warned := true }, none, [.noUrlWarn])
    else (st, none, [])
  else if ¬ st.connected ∨ ¬ st.hasClient then
    if env.connectOk then
      sendPhase { connected := true, hasClient := true, warned := false } env seq
        [.connectedInfo]
    else if ¬ st.warned then
      ({ st with connected := false, warned := true }, none, [.connectFailWarn])
    else
      ({ st with connected := false }, none, [])
  else
    sendPhase st env seq []

/-! ## Main loop (src/battery.py, `main_async`) -/

/-- The mutable state the loop body of `main_async` carries across ticks. -/
structure LoopState where
  seq : Nat
  ws : WsState
deriving DecidableEq, Repr

/-- State at loop entry: `seq = 1`, websocket globals at their initial
values (`_ws_client = None`, `_ws_connected = False`, `_ws_warned = False`). -/
def initialLoopState : LoopState :=
  { seq := 1, ws := { connected := false, hasClient := false, warned := false } }

/-- One iteration of the `while True` body of `main_async`, restricted to the
sequencing of read → report → `seq += 1`: a failed `read_status_once` prints
an error and `continue`s (no report, `seq` untouched); otherwise the tick
reports with the current `seq` and then increments it unconditionally.
Returns the new state and the sequence number delivered, if any. -/
def mainTick (st : LoopState) (status : Option StatusResult) (env : CloudEnv) :
    LoopState × Option Nat :=
  match status with
  | none => (st, none)
  | some _ =>
    let r := send_cloud_websocket st.ws env st.seq
    ({ seq := st.seq + 1, ws := r.1 }, r.2.1)

/-! ## Concrete inputs used by the counterexamples and witnesses -/

/-- A well-formed decoded sample (48 V, idle, 50 %, 25 °C, no protocol bits). -/
def sampleStatus : StatusResult :=
  { pack_v := 48, current_a := 0, soc := 50, tmax_c := 25,
    batt_status := 0, batt_alarm := 0, batt_safety := 0 }

/-- Network environment of a fully successful tick. -/
def envOk : CloudEnv := { urlConfigured := true, connectOk := true, sendOutcome := .ok }

/-- Network environment of a tick whose send hits a closed connection. -/
def envDrop : CloudEnv :=
  { urlConfigured := true, connectOk := true, sendOutcome := .connClosed }

/-- Log content of even length 204802 (> `MAX_LOG_SIZE`) whose trailing half
is distinguishable from the trailing `MAX_LOG_SIZE / 2` units. -/
def c7data : List Char := 'b' :: 'b' :: List.replicate 204800 'a'

end Battery

namespace Battery

/-! ## Helper lemmas -/

/-- The source's bit round and the spec's bit round agree. -/
theorem crcRound_eq_crcRefBit : crcRound = crcRefBit := by
  funext c
  simp only [crcRound, crcRefBit, Nat.and_one_is_mod, Nat.shiftRight_one]
  rcases Nat.mod_two_eq_zero_or_one c with h | h <;> simp [h]

/-- One CRC round keeps the register below 2^16. -/
theorem crcRound_lt (c : Nat) (h : c < 2 ^ 16) : crcRound c < 2 ^ 16 := by
  have hdiv : c >>> 1 < 2 ^ 16 :=
    lt_of_le_of_lt (Nat.shiftRight_one c ▸ Nat.div_le_self c 2) h
  unfold crcRound
  split
  · exact Nat.xor_lt_two_pow hdiv (by norm_num)
  · exact hdiv

/-- Iterated CRC rounds keep the register below 2^16. -/
theorem crcRound_iter_lt (n c : Nat) (h : c < 2 ^ 16) : crcRound^[n] c < 2 ^ 16 := by
  induction n generalizing c with
  | zero => simpa using h
  | succ k ih =>
    rw [Function.iterate_succ_apply]
    exact ih _ (crcRound_lt c h)

/-- The byte step keeps the register below 2^16. -/
theorem crcByte_lt (c b : Nat) (hc : c < 2 ^ 16) (hb : b < 2 ^ 16) :
    crcByte c b < 2 ^ 16 :=
  crcRound_iter_lt 8 _ (Nat.xor_lt_two_pow hc hb)

/-- Folding byte steps over byte data keeps the register below 2^16. -/
theorem foldl_crcByte_lt (data : List Nat) (crc : Nat) (hc : crc < 2 ^ 16)
    (h : ∀ b ∈ data, b < 256) : data.foldl crcByte crc < 2 ^ 16 := by
  induction data generalizing crc with
  | nil => simpa using hc
  | cons a l ih =>
    simp only [List.foldl_cons]
    exact ih (crcByte crc a)
      (crcByte_lt crc a hc (lt_trans (h a (List.mem_cons_self a l)) (by norm_num)))
      (fun b hb => h b (List.mem_cons_of_mem a hb))

/-- A successful decode consumes exactly two payload bytes per register. -/
theorem unpackWords_length : ∀ (l : List Nat) (ws : List Nat),
    unpackWords l = .ok ws → l.length = 2 * ws.length
  | [], ws => by
    intro h
    simp only [unpackWords] at h
    cases h
    simp
  | [_], ws => by
    intro h
    simp only [unpackWords] at h
    cases h
  | _ :: _ :: rest, ws => by
    intro h
    simp only [unpackWords] at h
    cases hr : unpackWords rest with
    | error e => rw [hr] at h; cases h
    | ok ws' =>
      rw [hr] at h
      simp only [Except.map] at h
      cases h
      have := unpackWords_length rest ws' hr
      simp [List.length_cons, this]
      ring

/-- Truncation equation of `append_log_line` when the stored size exceeds the
budget: the retained content is the trailing `MAX_LOG_SIZE / 2` units. -/
theorem append_log_line_of_gt (data line : List Char)
    (h : data.length > MAX_LOG_SIZE) :
    append_log_line (some data) line =
      data.drop (data.length - MAX_LOG_SIZE / 2) ++ line ++ ['\n'] := by
  simp only [append_log_line]
  rw [if_pos h]

/-- Length of the C7 content. -/
theorem c7data_length : c7data.length = 204802 := by
  unfold c7data
  rw [List.length_cons, List.length_cons, List.length_replicate]

/-- The membership test of `_decode_bits` and `Nat.testBit` agree. -/
theorem and_shift_eq_testBit (val i : Nat) :
    (decide (val &&& (1 <<< i) ≠ 0)) = val.testBit i := by
  rw [Nat.one_shiftLeft, Nat.and_two_pow]
  cases h : val.testBit i <;> simp [h, Nat.pow_eq_zero]

/-- On a table whose bit indices are listed in ascending order, the source's
decode agrees with the spec's ascending-bit-index decode. -/
theorem decode_bits_eq_spec_of_sorted (val : Nat) (table : List (Nat × String))
    (h : table.Pairwise (fun p q => p.1 ≤ q.1)) :
    _decode_bits val table = decodeBitsSpec val table := by
  unfold _decode_bits decodeBitsSpec
  have hfilter : table.filter (fun p => decide (val &&& (1 <<< p.1) ≠ 0)) =
      table.filter (fun p => val.testBit p.1) :=
    List.filter_congr (fun p _ => and_shift_eq_testBit val p.1)
  rw [hfilter, List.Sorted.insertionSort_eq (List.Pairwise.filter _ h)]

/-- A zero bitmask decodes to no labels, for any table. -/
theorem decode_bits_zero (table : List (Nat × String)) : _decode_bits 0 table = [] := by
  simp [_decode_bits]

/-- The spec-side decode of a zero bitmask is also empty. -/
theorem decodeBitsSpec_zero (table : List (Nat × String)) :
    decodeBitsSpec 0 table = [] := by
  simp [decodeBitsSpec, Nat.zero_testBit]

/-- The operational-alarm table lists its bit indices in ascending order. -/
theorem alarm_bits_sorted : BATTERY_ALARM_BITS.Pairwise (fun p q => p.1 ≤ q.1) := by
  decide

/-- The safety-trip table lists its bit indices in ascending order. -/
theorem safety_bits_sorted : BATTERY_SAFETY_BITS.Pairwise (fun p q => p.1 ≤ q.1) := by
  decide

/-- For every bitmask, `decode_battery_alarm` matches the spec-side decode. -/
theorem decode_battery_alarm_eq (val : Nat) :
    decode_battery_alarm val = decodeBitsSpec val BATTERY_ALARM_BITS := by
  unfold decode_battery_alarm
  split
  · rename_i h; rw [h, decodeBitsSpec_zero]
  · exact decode_bits_eq_spec_of_sorted val _ alarm_bits_sorted

/-- For every bitmask, `decode_battery_safety` matches the spec-side decode. -/
theorem decode_battery_safety_eq (val : Nat) :
    decode_battery_safety val = decodeBitsSpec val BATTERY_SAFETY_BITS := by
  unfold decode_battery_safety
  split
  · rename_i h; rw [h, decodeBitsSpec_zero]
  · exact decode_bits_eq_spec_of_sorted val _ safety_bits_sorted

/-- The source's threshold-alarm list equals the spec's, for all inputs. -/
theorem check_alarms_eq_ref (v c : ℚ) (soc : Nat) (t : ℚ) :
    check_alarms v c soc t = thresholdAlarmsRef v soc t := by
  unfold check_alarms thresholdAlarmsRef
  split_ifs <;> simp

/-! ## Claim theorems -/

/-- Claim C1: for every byte sequence, `crc16_modbus` computes the
bit-reflected CRC-16 with polynomial 0xA001, initial value 0xFFFF, one bit
processed per shift with XOR by 0xA001 when the shifted-out bit is 1 and no
final XOR (equality with the reference built from the spec's words), and the
result always lies in [0, 0xFFFF].  Determinism is inherent: the embedding
is a function of the data alone. -/
theorem crc16_modbus_spec (data : List Nat) (h : ∀ b ∈ data, b < 256) :
    crc16_modbus data = crc16_ref data ∧ crc16_modbus data ≤ 0xFFFF := by
  have hinit : (0xFFFF : Nat) < 2 ^ 16 := by norm_num
  have hfold : data.foldl crcByte 0xFFFF < 2 ^ 16 :=
    foldl_crcByte_lt data 0xFFFF hinit h
  constructor
  · show (data.foldl crcByte 0xFFFF) &&& 0xFFFF = crc16_ref data
    have hmask : (data.foldl crcByte 0xFFFF) &&& 0xFFFF = data.foldl crcByte 0xFFFF := by
      have := Nat.and_pow_two_sub_one_of_lt_two_pow (n := 16) hfold
      norm_num at this
      exact this
    rw [hmask]
    unfold crc16_ref crcByte
    rw [crcRound_eq_crcRefBit]
  · have h2 : (data.foldl crcByte 0xFFFF) &&& 0xFFFF < 2 ^ 16 :=
      Nat.and_lt_two_pow _ hinit
    show (data.foldl crcByte 0xFFFF) &&& 0xFFFF ≤ 0xFFFF
    omega

/-- Witness for C1 at the request-header bytes `[0x0B, 0x03, 0x00, 0x00]`. -/
theorem crc16_modbus_spec_witness :
    (∀ b ∈ ([0x0B, 0x03, 0x00, 0x00] : List Nat), b < 256) ∧
    (crc16_modbus [0x0B, 0x03, 0x00, 0x00] = crc16_ref [0x0B, 0x03, 0x00, 0x00] ∧
      crc16_modbus [0x0B, 0x03, 0x00, 0x00] ≤ 0xFFFF) :=
  ⟨by decide, crc16_modbus_spec [0x0B, 0x03, 0x00, 0x00] (by decide)⟩

set_option maxRecDepth 8192 in
/-- Claim C2 (code bug): a 6-byte response whose header and trailing checksum
are valid but whose payload has odd length makes `modbus_read_regs` raise
`struct.error` from the decode loop instead of returning `None`, contrary to
the claim (and to the function's own docstring).  The bytes
`[0x0B, 0x03, 0x00, 0x00, 0xF2, 0x00]` carry the correct CRC (0x00F2) of
their first four bytes. -/
theorem modbus_read_regs_raises :
    modbus_read_regs [0x0B, 0x03, 0x00, 0x00, 0xF2, 0x00] =
      .error "struct.error: unpack requires a buffer of 2 bytes" := by
  decide

set_option maxRecDepth 8192 in
/-- Counterexample to C3: for wordCount = 2 the full frame is 9 bytes, yet the
7-byte response `[0x0B, 0x03, 0x00, 0x00, 0x00, 0x81, 0x85]` (valid header,
valid CRC 0x8581 over its first five bytes) is decoded into a 1-word register
array instead of being rejected as a short frame. -/
theorem modbus_short_frame_decoded :
    ([0x0B, 0x03, 0x00, 0x00, 0x00, 0x81, 0x85] : List Nat).length < 5 + 2 * 2 ∧
    modbus_read_regs [0x0B, 0x03, 0x00, 0x00, 0x00, 0x81, 0x85] = .ok (some [0]) :=
  ⟨by decide, by decide⟩

/-- Claim C3 as amended: validation rejects (returns `None` for) any response
shorter than 5 bytes; it does not check the response length against the
requested wordCount, and whenever a register array is produced its length is
determined by the actual response length via `length = 5 + 2·(number of
registers)` — so a shorter passing response decodes into a shorter array. -/
theorem modbus_read_regs_validation (resp : List Nat) :
    (resp.length < 5 → modbus_read_regs resp = .ok none) ∧
    (∀ regs, modbus_read_regs resp = .ok (some regs) →
      resp.length = 5 + 2 * regs.length) := by
  constructor
  · intro h
    simp [modbus_read_regs, h]
  · intro regs h
    unfold modbus_read_regs at h
    split at h
    · cases h
    · split at h
      · cases h
      · split at h
        · cases h
        · rename_i h5 _ _
          cases hu : unpackWords ((resp.drop 3).dropLast.dropLast) with
          | error e => rw [hu] at h; cases h
          | ok ws =>
            rw [hu] at h
            simp only [Except.map] at h
            cases h
            have hlen := unpackWords_length _ _ hu
            simp only [List.length_dropLast, List.length_drop] at hlen
            omega

/-- Witness for C3 (amended) at the 3-byte response `[0, 0, 0]`. -/
theorem modbus_read_regs_validation_witness :
    ([0, 0, 0] : List Nat).length < 5 ∧ modbus_read_regs [0, 0, 0] = .ok none :=
  ⟨by decide, (modbus_read_regs_validation [0, 0, 0]).1 (by decide)⟩

end Battery

namespace Battery

/-- Counterexample to C4: with a fully successful pack-summary read (22
registers) but a failed temperature read, `read_status_once` returns `None`
and the tick is aborted — the temperature read is not a non-critical segment
left at a sentinel. -/
theorem read_status_once_temp_fail_aborts :
    read_status_once (some (List.replicate 0x16 0)) none = none := by
  simp [read_status_once]

/-- Claim C4 as amended: both reads performed by the sampler are critical —
the tick produces no snapshot exactly when the pack-summary read fails (or
returns fewer than 0x16 registers) or the temperature read fails (or returns
no register); there are no non-critical reads in this sampler (the status
bitmasks come from the pack-summary block itself, and no cell-voltage block
is read). -/
theorem read_status_once_none_iff (packRes tmaxRes : Option (List Nat)) :
    read_status_once packRes tmaxRes = none ↔
      packRes = none ∨ (∃ regs, packRes = some regs ∧ regs.length < 0x16) ∨
        tmaxRes = none ∨ tmaxRes = some [] := by
  cases packRes with
  | none => simp [read_status_once]
  | some regs =>
    by_cases hlen : regs.length < 0x16
    · simp [read_status_once, hlen]
    · cases tmaxRes with
      | none => simp [read_status_once, hlen]
      | some l =>
        cases l with
        | nil => simp [read_status_once, hlen]
        | cons a t => simp [read_status_once, hlen]

/-- Counterexample to C5: tick 1 delivers seq 1; tick 2's send fails on a
closed connection, yet it still consumes seq 2; tick 3 then delivers seq 3,
not (previous dispatched number 1) + 1 = 2. -/
theorem seq_skip_counterexample :
    (mainTick initialLoopState (some sampleStatus) envOk).2 = some 1 ∧
    (mainTick (mainTick initialLoopState (some sampleStatus) envOk).1
      (some sampleStatus) envDrop).2 = none ∧
    (mainTick (mainTick (mainTick initialLoopState (some sampleStatus) envOk).1
        (some sampleStatus) envDrop).1 (some sampleStatus) envOk).2 = some 3 ∧
    (3 : Nat) ≠ 1 + 1 :=
  ⟨rfl, rfl, rfl, by decide⟩

/-- Claim C5 as amended: the sequence counter starts at 1 and advances by
exactly one on every tick whose sample read succeeded — whether or not the
report was actually delivered — and stays unchanged on a failed read; a
delivered report always carries the tick's pre-increment counter value. -/
theorem mainTick_seq (st : LoopState) (status : Option StatusResult) (env : CloudEnv) :
    initialLoopState.seq = 1 ∧
    (mainTick st status env).1.seq = (if status.isSome then st.seq + 1 else st.seq) ∧
    (∀ n, (mainTick st status env).2 = some n → n = st.seq) := by
  refine ⟨rfl, ?_, ?_⟩
  · cases status <;> simp [mainTick]
  · intro n h
    cases status with
    | none => simp [mainTick] at h
    | some s =>
      obtain ⟨sq, c, hc, w⟩ := st
      simp only [mainTick] at h ⊢
      rcases env with ⟨u, co, so⟩
      cases u <;> cases co <;> cases c <;> cases hc <;> cases w <;> cases so <;>
        simp [send_cloud_websocket, sendPhase] at h <;> omega

/-- Witness for C5 (amended): the first successful tick delivers exactly the
initial counter value 1. -/
theorem mainTick_seq_witness :
    (mainTick initialLoopState (some sampleStatus) envOk).2 = some 1 ∧
    (1 : Nat) = initialLoopState.seq :=
  ⟨rfl, (mainTick_seq initialLoopState (some sampleStatus) envOk).2.2 1 rfl⟩

/-- Counterexample to C6: a successful send performed while the warned flag is
set (connected, client present, send succeeds) leaves the flag set — the
state-improving transition "successful send" does not reset it. -/
theorem warned_not_reset_on_send :
    (send_cloud_websocket ⟨true, true, true⟩ ⟨true, true, .ok⟩ 7).2.1 = some 7 ∧
    (send_cloud_websocket ⟨true, true, true⟩ ⟨true, true, .ok⟩ 7).1.warned = true := by
  decide

/-- Claim C6 as amended: the first connection failure emits exactly one
diagnostic and sets the warned flag, further consecutive failures (connect or
send) emit none while the flag is set, and the flag is reset to false by a
successful connect — but a successful send leaves the flag unchanged (it only
suppresses the success message); it does not reset it. -/
theorem warned_flag_behavior (st : WsState) (env : CloudEnv) (seq : Nat) :
    (env.urlConfigured = true → (st.connected = false ∨ st.hasClient = false) →
      env.connectOk = false →
      (send_cloud_websocket st env seq).2.2 =
          (if st.warned = true then [] else [.connectFailWarn]) ∧
        (send_cloud_websocket st env seq).1.warned = true) ∧
    (env.urlConfigured = true → st.connected = true → st.hasClient = true →
      env.sendOutcome ≠ .ok →
      ((send_cloud_websocket st env seq).2.2).length =
          (if st.warned = true then 0 else 1) ∧
        (send_cloud_websocket st env seq).1.warned = true) ∧
    (env.urlConfigured = true → (st.connected = false ∨ st.hasClient = false) →
      env.connectOk = true → env.sendOutcome = .ok →
      (send_cloud_websocket st env seq).1.warned = false) ∧
    (env.urlConfigured = true → st.connected = true → st.hasClient = true →
      env.sendOutcome = .ok →
      (send_cloud_websocket st env seq).1.warned = st.warned ∧
        (send_cloud_websocket st env seq).2.1 = some seq) := by
  obtain ⟨c, hc, w⟩ := st
  obtain ⟨u, co, so⟩ := env
  cases u <;> cases co <;> cases c <;> cases hc <;> cases w <;> cases so <;>
    simp [send_cloud_websocket, sendPhase]

/-- Witness for C6 (amended): a first connection failure from the fresh state
emits exactly the one connect-failure diagnostic and sets the flag. -/
theorem warned_flag_behavior_witness :
    (send_cloud_websocket ⟨false, false, false⟩ ⟨true, false, .ok⟩ 1).2.2 =
        [.connectFailWarn] ∧
      (send_cloud_websocket ⟨false, false, false⟩ ⟨true, false, .ok⟩ 1).1.warned = true := by
  have h := (warned_flag_behavior ⟨false, false, false⟩ ⟨true, false, .ok⟩ 1).1
    rfl (Or.inl rfl) rfl
  simpa using h

/-- Counterexample to C7: on stored content of length 204802 (over the 204800
budget) the append keeps the trailing `MAX_LOG_SIZE / 2` = 102400 units, which
differs from the trailing half (102401 units) of the existing content. -/
theorem log_truncation_counterexample :
    c7data.length > MAX_LOG_SIZE ∧
    append_log_line (some c7data) ['x'] ≠
      c7data.drop (c7data.length - c7data.length / 2) ++ ['x'] ++ ['\n'] := by
  have hgt : c7data.length > MAX_LOG_SIZE := by
    rw [c7data_length]; norm_num [MAX_LOG_SIZE]
  refine ⟨hgt, ?_⟩
  intro h
  rw [append_log_line_of_gt c7data ['x'] hgt] at h
  have hl := congrArg List.length h
  rw [List.length_append, List.length_append, List.length_append, List.length_append,
    List.length_drop, List.length_drop, c7data_length] at hl
  norm_num [MAX_LOG_SIZE] at hl

/-- Claim C7 as amended: for every append whose existing stored size exceeds
the budget, exactly one truncation occurs before the write and it retains
exactly the trailing `MAX_LOG_SIZE / 2` (half the budget, not half the
content) units of the existing content; the new line is then appended after
the retained content. -/
theorem append_log_line_truncates (data line : List Char)
    (h : data.length > MAX_LOG_SIZE) :
    append_log_line (some data) line =
      data.drop (data.length - MAX_LOG_SIZE / 2) ++ line ++ ['\n'] :=
  append_log_line_of_gt data line h

/-- Witness for C7 (amended) on content of length 204801. -/
theorem append_log_line_truncates_witness :
    (List.replicate 204801 'a').length > MAX_LOG_SIZE ∧
    append_log_line (some (List.replicate 204801 'a')) ['x'] =
      (List.replicate 204801 'a').drop
          ((List.replicate 204801 'a').length - MAX_LOG_SIZE / 2)
        ++ ['x'] ++ ['\n'] :=
  ⟨by rw [List.length_replicate]; norm_num [MAX_LOG_SIZE],
    append_log_line_truncates _ _ (by rw [List.length_replicate]; norm_num [MAX_LOG_SIZE])⟩

/-- Claim C8: for every tick's decoded values, the derived alarm list equals
the concatenation, in this fixed order, of the threshold alarms (pack
voltage > 58.4 → overvoltage, < 40.0 → undervoltage, max temperature > 60.0 →
overtemperature, < 0.0 → undertemperature, SOC ≥ 100 → full, ≤ 5 → low), then
the decoded operational-alarm labels, then the decoded safety-trip labels;
nothing is deduplicated and an empty list means nominal. -/
theorem tick_alarms_eq (s : StatusResult) : tick_alarms s = derivedAlarmsRef s := by
  unfold tick_alarms derivedAlarmsRef
  rw [check_alarms_eq_ref, decode_battery_alarm_eq, decode_battery_safety_eq]

/-- Counterexample to C9: on a table whose insertion order is not ascending in
bit index, `_decode_bits` lists labels in table order, not ascending
bit-index order. -/
theorem decode_bits_order_counterexample :
    _decode_bits 257 [(8, "hi"), (0, "lo")] = ["hi", "lo"] ∧
    decodeBitsSpec 257 [(8, "hi"), (0, "lo")] = ["lo", "hi"] ∧
    _decode_bits 257 [(8, "hi"), (0, "lo")] ≠ decodeBitsSpec 257 [(8, "hi"), (0, "lo")] :=
  ⟨by decide, by decide, by decide⟩

/-- Claim C9 as amended: a zero bitmask decodes to the empty list for every
table, and for every table whose entries are listed in ascending bit-index
order — as both tables of this module are — the decoded result contains
exactly the labels of the set bits present in the table, in ascending
bit-index order (unused bit positions contribute nothing). -/
theorem decode_bits_claim (val : Nat) (table : List (Nat × String)) :
    _decode_bits 0 table = [] ∧
    (table.Pairwise (fun p q => p.1 ≤ q.1) →
      _decode_bits val table = decodeBitsSpec val table) :=
  ⟨decode_bits_zero table, decode_bits_eq_spec_of_sorted val table⟩

/-- Witness for C9 (amended) at bitmask 0x100 (bit 8) on the operational-alarm
table. -/
theorem decode_bits_claim_witness :
    BATTERY_ALARM_BITS.Pairwise (fun p q => p.1 ≤ q.1) ∧
    _decode_bits 256 BATTERY_ALARM_BITS = decodeBitsSpec 256 BATTERY_ALARM_BITS ∧
    _decode_bits 256 BATTERY_ALARM_BITS = ["COV 单体电池过压"] :=
  ⟨alarm_bits_sorted, (decode_bits_claim 256 BATTERY_ALARM_BITS).2 alarm_bits_sorted,
    by decide⟩

/-- Claim C10: `check_alarms` does not depend on its current argument — for
any two current values the returned alarm list is identical, so no
current-based threshold alarm exists. -/
theorem check_alarms_ignores_current (pack_v c1 c2 : ℚ) (soc : Nat) (tmax_c : ℚ) :
    check_alarms pack_v c1 soc tmax_c = check_alarms pack_v c2 soc tmax_c := rfl

end Battery
